import Mathlib

/-!
Verification of the utilihive-monitoring collection-and-aggregation pipeline
(`monitoring_data_scrap.py`), shallowly embedded in Lean.

Modelling conventions:
- Python `datetime` values are integers counting microseconds (the resolution
  of `datetime`); calendar dates are integer day indices, so the midnight of
  day `d` is `d * usPerDay`.
- JSON payloads are the inductive `Json`; Python truthiness is `pyTruthy`.
- Python code that can raise an uncaught exception is embedded in
  `Except String`; a `.error` value corresponds to an exception propagating
  out of the translated fragment.
- The hourly CSV file is `Option (List Line)`: `none` means the file does not
  exist, `some lines` is its contents (header lines and data rows).
- Exact rational arithmetic (`ℚ`) stands in for Python/pandas floats.
-/

/-- JSON values as decoded by `response.json()`. -/
inductive Json where
  | null : Json
  | bool : Bool → Json
  | num : ℚ → Json
  | str : String → Json
  | arr : List Json → Json
  | obj : List (String × Json) → Json

/-- Python truthiness (`if data:`) of a decoded JSON value. -/
def pyTruthy : Json → Bool
  | Json.null => false
  | Json.bool b => b
  | Json.num q => decide (q ≠ 0)
  | Json.str s => decide (s ≠ "")
  | Json.arr xs => !xs.isEmpty
  | Json.obj fs => !fs.isEmpty

/-- Python's `isinstance(j, dict)` test. -/
def Json.isObj : Json → Bool
  | Json.obj _ => true
  | _ => false

/-- Is a decoded JSON value hashable in Python (usable as a dict key)?
Lists and dicts are unhashable; `None`, booleans, numbers and strings are
hashable. -/
def Json.isHashable : Json → Bool
  | Json.arr _ => false
  | Json.obj _ => false
  | _ => true

/-- Python's `dict.get(k, dflt)` on the field list of a JSON object (later bindings
shadow earlier ones, as in a Python dict built by repeated assignment). -/
def getD (fs : List (String × Json)) (k : String) (dflt : Json) : Json :=
  match (fs.filter (fun p => p.1 == k)).getLast? with
  | some p => p.2
  | none => dflt

/-- Attribute access `j.get(k, dflt)`: succeeds on an object, raises `AttributeError` (an
uncaught exception) when `j` is not a dict. -/
def pyGet (j : Json) (k : String) (dflt : Json) : Except String Json :=
  match j with
  | Json.obj fs => Except.ok (getD fs k dflt)
  | _ => Except.error "AttributeError: get"

/-- Python iteration `for x in j:`: lists yield their elements, dicts their
keys, strings their characters; other values raise `TypeError`. -/
def pyIter : Json → Except String (List Json)
  | Json.arr xs => Except.ok xs
  | Json.obj fs => Except.ok (fs.map (fun p => Json.str p.1))
  | Json.str s => Except.ok (s.data.map (fun c => Json.str (String.mk [c])))
  | _ => Except.error "TypeError: object is not iterable"

/-- The `metrics_dict[metric_id] = metric_value` loop of
`save_to_csv_hourly`: each metric entry must be a dict (`metric.get` raises
otherwise), and the assignment raises `TypeError: unhashable type` when the
`metricId` value is a list or dict; entries are kept in iteration order so
that a later duplicate `metricId` shadows an earlier one. -/
def buildMetricsDict : List Json → Except String (List (Json × Json))
  | [] => Except.ok []
  | m :: ms =>
    match m with
    | Json.obj mfs =>
        if (getD mfs "metricId" (Json.str "")).isHashable then do
          let rest ← buildMetricsDict ms
          Except.ok ((getD mfs "metricId" (Json.str ""), getD mfs "value" (Json.num 0)) :: rest)
        else
          Except.error "TypeError: unhashable type"
    | _ => Except.error "AttributeError: get"

/-- Is the dict key `j` the string `s` (Python equality between a dict key and
a string literal)? -/
def keyIsStr (j : Json) (s : String) : Bool :=
  match j with
  | Json.str t => t == s
  | _ => false

/-- Lookup `metrics_dict.get(k, 0)` where `metrics_dict` is the ordered entry list
built by `buildMetricsDict` (the last binding for a key wins). -/
def dictGetStr (d : List (Json × Json)) (k : String) : Json :=
  match (d.filter (fun p => keyIsStr p.1 k)).getLast? with
  | some p => p.2
  | none => Json.num 0

/-- The local wall-clock stamp `collection_datetime` passed to
`save_to_csv_hourly`; the generator always produces whole hours, so minutes
and seconds are zero. -/
structure LocalStamp where
  year : Nat
  month : Nat
  day : Nat
  hour : Nat
deriving DecidableEq, Repr

/-- Zero-padded two-digit rendering used by `strftime`. -/
def pad2 (n : Nat) : String :=
  if n < 10 then "0" ++ toString n else toString n

/-- Rendering `collection_datetime.strftime('%Y-%m-%d')`. -/
def LocalStamp.dateStr (c : LocalStamp) : String :=
  toString c.year ++ "-" ++ pad2 c.month ++ "-" ++ pad2 c.day

/-- Rendering `collection_datetime.strftime('%Y-%m-%d %H:%M:%S')` (whole hours). -/
def LocalStamp.dtStr (c : LocalStamp) : String :=
  c.dateStr ++ " " ++ pad2 c.hour ++ ":00:00"

/-- One flattened row (`flat_record` in `save_to_csv_hourly`).  Metric and
flow fields hold whatever JSON value the payload supplied, as in the Python
dict. -/
structure FlatRecord where
  datetime : String
  date : String
  hour : Nat
  collection_timestamp : String
  flow_id : Json
  flow_name : Json
  flow_state : Json
  total_exchanges : Json
  successful_exchanges : Json
  failed_exchanges : Json
  inflight_exchanges : Json
  avg_response_time_ms : Json
  avg_processing_time_ms : Json

/-- The record-flattening loop of `save_to_csv_hourly` (lines 151-188):
non-dict entries are skipped with `continue`; for a dict entry the flow
details and the metric array are reduced to one `FlatRecord`. -/
def flattenRecords (cdt : LocalStamp) (nowTs : String) : List Json → Except String (List FlatRecord)
  | [] => Except.ok []
  | r :: rs =>
    match r with
    | Json.obj fields => do
        let flow_details := getD fields "flowDetails" (Json.obj [])
        let metrics := getD fields "metrics" (Json.arr [])
        let flow_id ← pyGet flow_details "flowId" (Json.str "unknown")
        let flow_name ← pyGet flow_details "flowName" (Json.str "")
        let flow_state ← pyGet flow_details "flowState" (Json.str "")
        let items ← pyIter metrics
        let mdict ← buildMetricsDict items
        let rest ← flattenRecords cdt nowTs rs
        Except.ok ({ datetime := cdt.dtStr
                     date := cdt.dateStr
                     hour := cdt.hour
                     collection_timestamp := nowTs
                     flow_id := flow_id
                     flow_name := flow_name
                     flow_state := flow_state
                     total_exchanges := dictGetStr mdict "total-exchanges"
                     successful_exchanges := dictGetStr mdict "successful-exchanges"
                     failed_exchanges := dictGetStr mdict "failed-exchanges"
                     inflight_exchanges := dictGetStr mdict "inflight-exchanges"
                     avg_response_time_ms := dictGetStr mdict "avg-response-time-millis"
                     avg_processing_time_ms := dictGetStr mdict "avg-processing-time-millis" } :: rest)
    | _ => flattenRecords cdt nowTs rs

/-- One line of the hourly CSV file: the column header or a data row. -/
inductive Line where
  | header : Line
  | row : FlatRecord → Line

/-- Is a CSV line the column header? -/
def isHeaderLine : Line → Bool
  | Line.header => true
  | Line.row _ => false

/-- The data row carried by a CSV line, if any. -/
def lineRecord : Line → Option FlatRecord
  | Line.header => none
  | Line.row r => some r

/-- Number of header lines in the hourly file. -/
def headerCount (f : Option (List Line)) : Nat :=
  (f.getD []).countP isHeaderLine

/-- The `readAll` operation: the ordered data rows of the hourly file. -/
def readAll (f : Option (List Line)) : List FlatRecord :=
  (f.getD []).filterMap lineRecord

/-- The file-writing part of `save_to_csv_hourly` (lines 190-233): opening in
append mode creates the file even when nothing is written; the header is
written only when the file did not exist at open time, and only the data rows
follow it. -/
def saveRecords (records : List Json) (file : Option (List Line)) (cdt : LocalStamp)
    (nowTs : String) : Except String (Option (List Line) × List FlatRecord) := do
  let flattened ← flattenRecords cdt nowTs records
  let lines := file.getD []
  if flattened.isEmpty then
    Except.ok (some lines, flattened)
  else
    Except.ok (some (lines ++ (if file.isSome then [] else [Line.header]) ++ flattened.map Line.row), flattened)

/-- The whole of `save_to_csv_hourly(data, csv_file, collection_datetime)`: a falsy payload
returns immediately; a dict is wrapped in a singleton list; a non-dict,
non-list payload is reported and dropped; otherwise the records are flattened
and appended. Returns the new file contents and the flattened records. -/
def save_to_csv_hourly (data : Json) (file : Option (List Line)) (cdt : LocalStamp)
    (nowTs : String) : Except String (Option (List Line) × List FlatRecord) :=
  if pyTruthy data then
    match data with
    | Json.obj _ => saveRecords [data] file cdt nowTs
    | Json.arr xs => saveRecords xs file cdt nowTs
    | _ => Except.ok (file, [])
  else
    Except.ok (file, [])

/-- Microseconds in one hour (`timedelta(hours=1)` at `datetime` resolution). -/
def usPerHour : Int := 3600000000

/-- Microseconds in one day. -/
def usPerDay : Int := 24 * usPerHour

/-- Microsecond offset of `23:59:59.999999` from midnight — the result of
`end_date.replace(hour=23, minute=59, second=59, microsecond=999999)`. -/
def lastUsOfDay : Int := 23 * usPerHour + 59 * 60000000 + 59 * 1000000 + 999999

/-- One element of the list built by `generate_hourly_ranges`: the tuple
`(from_datetime_utc, to_datetime_utc, current_datetime)`. -/
structure HourRange where
  from_utc : Int
  to_utc : Int
  local_dt : Int
deriving DecidableEq, Repr

/-- The `while current_datetime <= end_datetime` loop of
`generate_hourly_ranges`, parametrised by the configured
`TIMEZONE_OFFSET_HOURS` value `tz`. -/
def genLoop (tz : Int) (endDt : Int) (cur : Int) : List HourRange :=
  if _h : cur ≤ endDt then
    { from_utc := cur - tz * usPerHour
      to_utc := cur + usPerHour - tz * usPerHour
      local_dt := cur } :: genLoop tz endDt (cur + usPerHour)
  else
    []
termination_by (endDt + usPerHour - cur).toNat
decreasing_by
  simp only [usPerHour] at *
  omega

/-- The function `generate_hourly_ranges(start_date, end_date)` for calendar dates given as
day indices `sd`, `ed`: the loop starts at `start_date.replace(hour=0, ...)`
(local midnight) and runs while `current <= end_date.replace(hour=23,
minute=59, second=59, microsecond=999999)`. -/
def generate_hourly_ranges (tz sd ed : Int) : List HourRange :=
  genLoop tz (ed * usPerDay + lastUsOfDay) (sd * usPerDay)

/-- One row of the hourly CSV as parsed back by `pd.read_csv` for
aggregation: key columns as strings, metric columns numeric. -/
structure HRow where
  date : String
  flow_id : String
  flow_name : String
  flow_state : String
  total_exchanges : ℚ
  successful_exchanges : ℚ
  failed_exchanges : ℚ
  inflight_exchanges : ℚ
  avg_response_time_ms : ℚ
  avg_processing_time_ms : ℚ
deriving DecidableEq, Repr

/-- The pandas group key `(date, flow_id, flow_name, flow_state)`. -/
abbrev Key : Type := String × String × String × String

/-- The group key of one hourly row. -/
def rowKey (r : HRow) : Key :=
  (r.date, r.flow_id, r.flow_name, r.flow_state)

/-- Lexicographic comparison of group keys, mirroring the ascending key order
of `df.groupby` on string columns. -/
def keyLe (a b : Key) : Bool :=
  if a.1 ≠ b.1 then decide (a.1 < b.1)
  else if a.2.1 ≠ b.2.1 then decide (a.2.1 < b.2.1)
  else if a.2.2.1 ≠ b.2.2.1 then decide (a.2.2.1 < b.2.2.1)
  else decide (a.2.2.2 ≤ b.2.2.2)

/-- Insertion step of the key sort. -/
def insKey (k : Key) : List Key → List Key
  | [] => [k]
  | x :: xs => if keyLe k x then k :: x :: xs else x :: insKey k xs

/-- Sort the distinct group keys, as `groupby` does. -/
def sortKeys : List Key → List Key
  | [] => []
  | k :: ks => insKey k (sortKeys ks)

/-- The rows of one group. -/
def rowsFor (rows : List HRow) (k : Key) : List HRow :=
  rows.filter (fun r => rowKey r = k)

/-- One row of the daily CSV. -/
structure DRow where
  date : String
  collection_timestamp : String
  flow_id : String
  flow_name : String
  flow_state : String
  total_exchanges : ℚ
  successful_exchanges : ℚ
  failed_exchanges : ℚ
  inflight_exchanges : ℚ
  avg_response_time_ms : ℚ
  avg_processing_time_ms : ℚ
deriving DecidableEq, Repr

/-- The `agg` dictionary of `aggregate_to_daily` applied to one group: sums
over the exchange counters and means (sum divided by group size) over the
inflight and latency columns, stamped with the aggregation wall-clock time
`nowTs`. -/
def aggRow (nowTs : String) (rows : List HRow) (k : Key) : DRow :=
  let g := rowsFor rows k
  { date := k.1
    collection_timestamp := nowTs
    flow_id := k.2.1
    flow_name := k.2.2.1
    flow_state := k.2.2.2
    total_exchanges := (g.map HRow.total_exchanges).sum
    successful_exchanges := (g.map HRow.successful_exchanges).sum
    failed_exchanges := (g.map HRow.failed_exchanges).sum
    inflight_exchanges := (g.map HRow.inflight_exchanges).sum / (g.length : ℚ)
    avg_response_time_ms := (g.map HRow.avg_response_time_ms).sum / (g.length : ℚ)
    avg_processing_time_ms := (g.map HRow.avg_processing_time_ms).sum / (g.length : ℚ) }

/-- The function `aggregate_to_daily`: with an empty hourly dataset it logs a warning and
returns without writing (`none`); otherwise it produces one output row per
distinct group key, stamped with the aggregation time, and the daily file is
replaced with exactly these rows. -/
def aggregate_to_daily (nowTs : String) (rows : List HRow) : Option (List DRow) :=
  if rows.isEmpty then
    none
  else
    some ((sortKeys (rows.map rowKey).dedup).map (aggRow nowTs rows))

/-- Contents of `token.json` after a successful parse: the `token` entry and
the optional `expires_at` timestamp (microseconds, already parsed by
`datetime.fromisoformat`). -/
structure TokenData where
  token : Option String
  expires_at : Option Int
deriving DecidableEq, Repr

/-- The ambient state read by `load_token`: `token_file = none` means
`token.json` does not exist; `some none` means reading or parsing it raises
an exception (bad JSON, bad timestamp — caught by the `except` clause);
`some (some td)` is a successful parse.  `api_token_env` is `API_TOKEN` and
`now` is `datetime.now()`. -/
structure TokenEnv where
  token_file : Option (Option TokenData)
  api_token_env : Option String
  now : Int
deriving DecidableEq, Repr

/-- Truthiness of `token_data.get('token')`. -/
def pyTruthyStrOpt : Option String → Bool
  | none => false
  | some s => decide (s ≠ "")

/-- The environment-variable fallback at the end of `load_token`. -/
def envFallback (e : TokenEnv) : Option String :=
  match e.api_token_env with
  | some t => if t ≠ "" then some t else none
  | none => none

/-- The function `load_token()`: a readable token file with a falsy or expired token
returns `None` immediately (the env fallback is reached only when the file is
absent or raises); otherwise the file token, else the `API_TOKEN` variable. -/
def load_token (e : TokenEnv) : Option String :=
  match e.token_file with
  | some (some td) =>
      if pyTruthyStrOpt td.token then
        match td.expires_at with
        | some exp => if e.now ≥ exp then none else td.token
        | none => td.token
      else
        none
  | some none => envFallback e
  | none => envFallback e

/-- One fetch window as consumed by the main loop: the UTC bounds passed to
`fetch_data` and the local stamp passed to `save_to_csv_hourly`. -/
structure PipeWindow where
  from_utc : Int
  to_utc : Int
  local_dt : LocalStamp

/-- The `total_records` increment for one payload: `len(data)` for a list,
`1` otherwise. -/
def recordCount : Json → Nat
  | Json.arr xs => xs.length
  | _ => 1

/-- Did `fetch_data` return a truthy payload for this window (the `if data:`
test of the main loop)?  `none` is a request failure (`fetch_data` returns
`None`). -/
def fetchTruthy (fetch : PipeWindow → Option Json) (w : PipeWindow) : Bool :=
  match fetch w with
  | some d => pyTruthy d
  | none => false

/-- The per-window loop of `main` (lines 370-395): a falsy or missing payload
only logs a warning; a truthy payload is saved and counted in
`successful_hours` and `total_records`.  Returns the final hourly file and
the two counters. -/
def processWindows (fetch : PipeWindow → Option Json) (nowTs : String) :
    List PipeWindow → Option (List Line) → Nat → Nat →
    Except String (Option (List Line) × Nat × Nat)
  | [], file, succ, total => Except.ok (file, succ, total)
  | w :: ws, file, succ, total =>
    match fetch w with
    | some data =>
        if pyTruthy data then do
          let res ← save_to_csv_hourly data file w.local_dt nowTs
          processWindows fetch nowTs ws res.1 (succ + 1) (total + recordCount data)
        else
          processWindows fetch nowTs ws file succ total
    | none => processWindows fetch nowTs ws file succ total

/-- The run up to and including the window loop: the token gate of `main`
(lines 308-322) exits with status 1 before any fetch when `load_token` yields
nothing; an exception escaping the loop kills the process (modelled as exit
status 2). -/
def main_run (e : TokenEnv) (fetch : PipeWindow → Option Json) (ws : List PipeWindow)
    (nowTs : String) : Except Nat (Option (List Line) × Nat × Nat) :=
  match load_token e with
  | none => Except.error 1
  | some tok =>
      if tok = "" then Except.error 1
      else
        match processWindows fetch nowTs ws none 0 0 with
        | Except.ok r => Except.ok r
        | Except.error _ => Except.error 2

/-- The daily row with its wall-clock stamp blanked, for comparing two
aggregation passes up to the stamp. -/
def DRow.eraseStamp (d : DRow) : DRow :=
  { d with collection_timestamp := "" }

/-- The flattened record produced for a payload entry with no usable
`flowDetails` and no metrics: every metric field defaults to `0`. -/
def sampleFlat (c : LocalStamp) (t : String) : FlatRecord :=
  { datetime := c.dtStr
    date := c.dateStr
    hour := c.hour
    collection_timestamp := t
    flow_id := Json.str "unknown"
    flow_name := Json.str ""
    flow_state := Json.str ""
    total_exchanges := Json.num 0
    successful_exchanges := Json.num 0
    failed_exchanges := Json.num 0
    inflight_exchanges := Json.num 0
    avg_response_time_ms := Json.num 0
    avg_processing_time_ms := Json.num 0 }

/-- The `metricId` key under which a metric entry is stored by the
`metrics_dict` loop (`metric.get('metricId', '')`). -/
def idOfMetric : Json → Json
  | Json.obj mfs => getD mfs "metricId" (Json.str "")
  | _ => Json.str ""

/-- The record field fed from a given `metricId`, per the fixed mapping of
`save_to_csv_hourly`; `none` for an unmapped id. -/
def metricField (r : FlatRecord) (mid : String) : Option Json :=
  if mid = "total-exchanges" then some r.total_exchanges
  else if mid = "successful-exchanges" then some r.successful_exchanges
  else if mid = "failed-exchanges" then some r.failed_exchanges
  else if mid = "inflight-exchanges" then some r.inflight_exchanges
  else if mid = "avg-response-time-millis" then some r.avg_response_time_ms
  else if mid = "avg-processing-time-millis" then some r.avg_processing_time_ms
  else none

/-- Spec of the window list for dates `sd ≤ ed` and offset `tz`: exactly
`24 * daysInclusive` windows; the i-th local timestamp is midnight of `sd`
plus `i` hours; strictly increasing; each one hour long with
`from_utc = local - tz`; contiguous; first at local midnight of `sd`, last at
23:00 of `ed`. -/
def windowGeneratorSpec (tz sd ed : Int) : Prop :=
  (((generate_hourly_ranges tz sd ed).length : Int) = 24 * (ed - sd + 1))
  ∧ (∀ i, ∀ hi : i < (generate_hourly_ranges tz sd ed).length,
      ((generate_hourly_ranges tz sd ed).get ⟨i, hi⟩).local_dt
        = sd * usPerDay + (i : Int) * usPerHour)
  ∧ (∀ i j, ∀ hi : i < (generate_hourly_ranges tz sd ed).length,
      ∀ hj : j < (generate_hourly_ranges tz sd ed).length, i < j →
      ((generate_hourly_ranges tz sd ed).get ⟨i, hi⟩).local_dt
        < ((generate_hourly_ranges tz sd ed).get ⟨j, hj⟩).local_dt)
  ∧ (∀ w ∈ generate_hourly_ranges tz sd ed,
      w.to_utc = w.from_utc + usPerHour ∧ w.from_utc = w.local_dt - tz * usPerHour)
  ∧ (∀ i, ∀ hi : i + 1 < (generate_hourly_ranges tz sd ed).length,
      ((generate_hourly_ranges tz sd ed).get ⟨i + 1, hi⟩).from_utc
        = ((generate_hourly_ranges tz sd ed).get ⟨i, Nat.lt_of_succ_lt hi⟩).to_utc)
  ∧ (∀ h0 : 0 < (generate_hourly_ranges tz sd ed).length,
      ((generate_hourly_ranges tz sd ed).get ⟨0, h0⟩).local_dt = sd * usPerDay)
  ∧ (∀ hl : (generate_hourly_ranges tz sd ed).length - 1
        < (generate_hourly_ranges tz sd ed).length,
      ((generate_hourly_ranges tz sd ed).get
          ⟨(generate_hourly_ranges tz sd ed).length - 1, hl⟩).local_dt
        = ed * usPerDay + 23 * usPerHour)

/-- Spec of one daily group: the aggregation output exists, has one row per
distinct key, and contains a row for `k` whose counters are group sums and
whose latency columns are arithmetic means of the group's hourly values. -/
def dailyGroupSpec (ts : String) (rows : List HRow) (k : Key) : Prop :=
  ∃ l, aggregate_to_daily ts rows = some l ∧
    l.length = ((rows.map rowKey).dedup).length ∧
    ∃ d ∈ l,
      d.date = k.1 ∧ d.flow_id = k.2.1 ∧ d.flow_name = k.2.2.1 ∧ d.flow_state = k.2.2.2 ∧
      d.total_exchanges = ((rowsFor rows k).map HRow.total_exchanges).sum ∧
      d.successful_exchanges = ((rowsFor rows k).map HRow.successful_exchanges).sum ∧
      d.failed_exchanges = ((rowsFor rows k).map HRow.failed_exchanges).sum ∧
      d.inflight_exchanges
        = ((rowsFor rows k).map HRow.inflight_exchanges).sum / ((rowsFor rows k).length : ℚ) ∧
      d.avg_response_time_ms
        = ((rowsFor rows k).map HRow.avg_response_time_ms).sum / ((rowsFor rows k).length : ℚ) ∧
      d.avg_processing_time_ms
        = ((rowsFor rows k).map HRow.avg_processing_time_ms).sum / ((rowsFor rows k).length : ℚ)

/-- Spec of the flattener's metric defaulting for one well-formed entry: the
entry flattens to exactly one record, and every record field mapped from a
`metricId` absent from the entry's metrics holds `0`. -/
def flattenerMissingMetricZero (c : LocalStamp) (ts mid : String)
    (fs : List (String × Json)) : Prop :=
  ∃ rec, flattenRecords c ts [Json.obj fs] = Except.ok [rec] ∧
    ∀ j, metricField rec mid = some j → j = Json.num 0

theorem mem_insKey {x k : Key} {l : List Key} : x ∈ insKey k l ↔ x = k ∨ x ∈ l := by
  induction l with
  | nil => simp [insKey]
  | cons a as ih =>
      by_cases h : keyLe k a
      · simp [insKey, h]
      · simp only [insKey, h, Bool.false_eq_true, if_false, List.mem_cons, ih]
        tauto

theorem mem_sortKeys {x : Key} {l : List Key} : x ∈ sortKeys l ↔ x ∈ l := by
  induction l with
  | nil => simp [sortKeys]
  | cons a as ih => simp [sortKeys, mem_insKey, ih]

theorem length_insKey (k : Key) (l : List Key) : (insKey k l).length = l.length + 1 := by
  induction l with
  | nil => simp [insKey]
  | cons a as ih =>
      by_cases h : keyLe k a <;> simp [insKey, h, ih]

theorem length_sortKeys (l : List Key) : (sortKeys l).length = l.length := by
  induction l with
  | nil => rfl
  | cons a as ih => simp [sortKeys, length_insKey, ih]

/-- C2: for every hourly dataset and every group key present in it, the daily
aggregation groups the rows by `(date, flow_id, flow_name, flow_state)`,
producing one output row per distinct key, and the row for the key carries
the group sums of the exchange counters and the arithmetic means of the
inflight and latency columns. -/
theorem daily_aggregation_groups_sums_means (ts : String) (rows : List HRow) (k : Key)
    (hk : k ∈ rows.map rowKey) : dailyGroupSpec ts rows k := by
  have hne : rows.isEmpty = false := by
    cases rows with
    | nil => simp at hk
    | cons r rs => rfl
  refine ⟨(sortKeys (rows.map rowKey).dedup).map (aggRow ts rows), ?_, ?_, ?_⟩
  · simp [aggregate_to_daily, hne]
  · simp [length_sortKeys]
  · refine ⟨aggRow ts rows k, List.mem_map.mpr ⟨k, mem_sortKeys.mpr (List.mem_dedup.mpr hk), rfl⟩, ?_⟩
    simp [aggRow]


theorem aggregate_pair_same_key (ts : String) (r1 r2 : HRow) (h : rowKey r1 = rowKey r2) :
    aggregate_to_daily ts [r1, r2] = some [aggRow ts [r1, r2] (rowKey r1)] := by
  have hd : ([rowKey r1, rowKey r2]).dedup = [rowKey r2] := by
    rw [List.dedup_cons_of_mem (by simp [h])]
    simp
  simp [aggregate_to_daily, hd, h, sortKeys, insKey]

/-- C2 witness: two hourly rows for `(2024-01-01, F1)` with totals 10 and 20
and response times 100 and 200 aggregate to one row with total 30 and
response time 150. -/
theorem daily_aggregation_groups_sums_means_witness :
    (("2024-01-01", "F1", "", "") ∈
      ([⟨"2024-01-01", "F1", "", "", 10, 7, 0, 0, 100, 0⟩,
        ⟨"2024-01-01", "F1", "", "", 20, 0, 0, 0, 200, 0⟩] : List HRow).map rowKey)
    ∧ dailyGroupSpec "2026-10-12T00:00:00"
        [⟨"2024-01-01", "F1", "", "", 10, 7, 0, 0, 100, 0⟩,
         ⟨"2024-01-01", "F1", "", "", 20, 0, 0, 0, 200, 0⟩] ("2024-01-01", "F1", "", "")
    ∧ aggregate_to_daily "2026-10-12T00:00:00"
        [⟨"2024-01-01", "F1", "", "", 10, 7, 0, 0, 100, 0⟩,
         ⟨"2024-01-01", "F1", "", "", 20, 0, 0, 0, 200, 0⟩]
      = some [⟨"2024-01-01", "2026-10-12T00:00:00", "F1", "", "", 30, 7, 0, 0, 150, 0⟩] := by
  refine ⟨by decide, daily_aggregation_groups_sums_means _ _ _ (by decide), ?_⟩
  rw [aggregate_pair_same_key _ _ _ (by decide)]
  have hfil : rowsFor
      [(⟨"2024-01-01", "F1", "", "", 10, 7, 0, 0, 100, 0⟩ : HRow),
       ⟨"2024-01-01", "F1", "", "", 20, 0, 0, 0, 200, 0⟩]
      (rowKey ⟨"2024-01-01", "F1", "", "", 10, 7, 0, 0, 100, 0⟩)
      = [⟨"2024-01-01", "F1", "", "", 10, 7, 0, 0, 100, 0⟩,
         ⟨"2024-01-01", "F1", "", "", 20, 0, 0, 0, 200, 0⟩] := by
    simp [rowsFor, rowKey]
  simp only [aggRow, hfil]
  norm_num [rowKey]

/-- C6 counterexample: the same one-row hourly dataset aggregated at two
different wall-clock times yields different daily outputs (the
`collection_timestamp` column records the aggregation time), so the daily
output is not byte-identical across two runs over unchanged data. -/
theorem daily_aggregation_timestamp_counterexample :
    aggregate_to_daily "2026-10-12T00:00:00" [⟨"2024-01-01", "F1", "", "", 10, 7, 0, 0, 100, 0⟩]
      ≠ aggregate_to_daily "2026-10-12T01:00:00"
          [⟨"2024-01-01", "F1", "", "", 10, 7, 0, 0, 100, 0⟩] := by
  intro h
  have hd : (([⟨"2024-01-01", "F1", "", "", 10, 7, 0, 0, 100, 0⟩] : List HRow).map rowKey).dedup
      = [rowKey ⟨"2024-01-01", "F1", "", "", 10, 7, 0, 0, 100, 0⟩] := by simp
  simp only [aggregate_to_daily, hd, sortKeys, insKey, List.isEmpty_cons, ite_false,
    Bool.false_eq_true, if_false, List.map_cons, List.map_nil, Option.some.injEq,
    List.cons.injEq, and_true] at h
  have := congrArg DRow.collection_timestamp h
  simp [aggRow] at this

/-- C6 amended: apart from the `collection_timestamp` column, the daily
output is a pure function of the hourly dataset contents — two aggregation
passes over unchanged data agree on every other column, and the daily file is
fully replaced so no prior daily state is consulted. -/
theorem daily_aggregation_pure_up_to_timestamp (ts1 ts2 : String) (rows : List HRow) :
    (aggregate_to_daily ts1 rows).map (List.map DRow.eraseStamp)
      = (aggregate_to_daily ts2 rows).map (List.map DRow.eraseStamp) := by
  unfold aggregate_to_daily
  by_cases h : rows.isEmpty <;> simp [h, List.map_map]
  intro a b c d _
  rfl

/-- C9: aggregating an hourly dataset with zero data rows is a no-op — the
function returns normally (the condition is only logged, not fatal) and
produces no daily dataset. -/
theorem empty_dataset_aggregation_noop (ts : String) : aggregate_to_daily ts [] = none := rfl

theorem exceptBind_ok {α β : Type} (a : α) (f : α → Except String β) :
    (Except.ok a >>= f) = f a := rfl

theorem exceptBind_error {α β : Type} (e : String) (f : α → Except String β) :
    ((Except.error e : Except String α) >>= f) = Except.error e := rfl

theorem countP_header_rows (l : List FlatRecord) :
    (l.map Line.row).countP isHeaderLine = 0 := by
  induction l with
  | nil => rfl
  | cons a as ih => simp [List.countP_cons, isHeaderLine, ih]

theorem filterMap_lineRecord_rows (l : List FlatRecord) :
    (l.map Line.row).filterMap lineRecord = l := by
  induction l with
  | nil => rfl
  | cons a as ih => simp [List.filterMap_cons, lineRecord, ih]

theorem saveRecords_ok_nonempty (rs : List Json) (file : Option (List Line)) (c : LocalStamp)
    (t : String) (f' : Option (List Line)) (r : List FlatRecord)
    (h : saveRecords rs file c t = Except.ok (f', r)) (hr : r ≠ []) :
    f' = some (file.getD [] ++ (if file.isSome then [] else [Line.header]) ++ r.map Line.row) := by
  unfold saveRecords at h
  cases hfl : flattenRecords c t rs with
  | error e => rw [hfl, exceptBind_error] at h; exact absurd h (by simp)
  | ok fl =>
      rw [hfl, exceptBind_ok] at h
      cases he : fl.isEmpty with
      | true =>
          have hfl0 : fl = [] := by simpa using he
          subst hfl0
          simp only [he, if_true, List.isEmpty_nil] at h
          simp only [Except.ok.injEq, Prod.mk.injEq] at h
          exact absurd h.2.symm hr
      | false =>
          simp only [he, Bool.false_eq_true, if_false] at h
          simp only [Except.ok.injEq, Prod.mk.injEq] at h
          rw [← h.2]
          exact h.1.symm

theorem save_ok_nonempty (p : Json) (file : Option (List Line)) (c : LocalStamp) (t : String)
    (f' : Option (List Line)) (r : List FlatRecord)
    (h : save_to_csv_hourly p file c t = Except.ok (f', r)) (hr : r ≠ []) :
    f' = some (file.getD [] ++ (if file.isSome then [] else [Line.header]) ++ r.map Line.row) := by
  unfold save_to_csv_hourly at h
  by_cases ht : pyTruthy p
  · rw [if_pos ht] at h
    cases p with
    | obj fs => exact saveRecords_ok_nonempty _ _ _ _ _ _ h hr
    | arr xs => exact saveRecords_ok_nonempty _ _ _ _ _ _ h hr
    | null => simp only [Except.ok.injEq, Prod.mk.injEq] at h; exact absurd h.2.symm hr
    | bool b => simp only [Except.ok.injEq, Prod.mk.injEq] at h; exact absurd h.2.symm hr
    | num q => simp only [Except.ok.injEq, Prod.mk.injEq] at h; exact absurd h.2.symm hr
    | str s => simp only [Except.ok.injEq, Prod.mk.injEq] at h; exact absurd h.2.symm hr
  · rw [if_neg ht] at h
    simp only [Except.ok.injEq, Prod.mk.injEq] at h
    exact absurd h.2.symm hr

/-- C3 amended: two consecutive `save_to_csv_hourly` calls on a fresh dataset
whose payloads each flatten to at least one record leave both batches present
in append order (`readAll` returns batch1 ++ batch2) with the header written
exactly once; the header guarantee needs every file-touching call to carry at
least one record, since a truthy payload flattening to zero records creates
the file empty and headerless. -/
theorem hourly_store_append_order_header_once
    (p1 p2 : Json) (c1 c2 : LocalStamp) (t1 t2 : String)
    (f1 f2 : Option (List Line)) (r1 r2 : List FlatRecord)
    (h1 : save_to_csv_hourly p1 none c1 t1 = Except.ok (f1, r1)) (hr1 : r1 ≠ [])
    (h2 : save_to_csv_hourly p2 f1 c2 t2 = Except.ok (f2, r2)) (hr2 : r2 ≠ []) :
    f2 = some ([Line.header] ++ r1.map Line.row ++ r2.map Line.row)
    ∧ headerCount f2 = 1
    ∧ readAll f2 = r1 ++ r2 := by
  have e1 := save_ok_nonempty p1 none c1 t1 f1 r1 h1 hr1
  simp only [Option.getD_none, Option.isSome_none, Bool.false_eq_true, if_false,
    List.nil_append] at e1
  subst e1
  have e2 := save_ok_nonempty p2 _ c2 t2 f2 r2 h2 hr2
  simp only [Option.getD_some, Option.isSome_some, if_true, List.append_nil] at e2
  subst e2
  refine ⟨by simp, ?_, ?_⟩
  · simp [headerCount, List.countP_append, countP_header_rows, List.countP_cons, isHeaderLine]
  · simp only [readAll, Option.getD_some]
    rw [List.append_assoc, List.filterMap_append, List.filterMap_append,
      filterMap_lineRecord_rows, filterMap_lineRecord_rows]
    simp [lineRecord]

/-- C3 counterexample: a first call whose truthy payload `[1]` flattens to
zero records creates the dataset as an empty, headerless file; a second call
then appends a data batch without ever writing the header, so the file holds
a record batch but zero headers — the header does not appear exactly once
regardless of payload shapes. -/
theorem hourly_store_header_zero_counterexample :
    save_to_csv_hourly (Json.arr [Json.num 1]) none ⟨2024, 1, 1, 0⟩ "ts1"
      = Except.ok (some [], [])
    ∧ save_to_csv_hourly (Json.obj [("x", Json.null)]) (some []) ⟨2024, 1, 1, 1⟩ "ts2"
      = Except.ok (some [Line.row (sampleFlat ⟨2024, 1, 1, 1⟩ "ts2")],
          [sampleFlat ⟨2024, 1, 1, 1⟩ "ts2"])
    ∧ headerCount (some [Line.row (sampleFlat ⟨2024, 1, 1, 1⟩ "ts2")]) = 0
    ∧ readAll (some [Line.row (sampleFlat ⟨2024, 1, 1, 1⟩ "ts2")])
        = [sampleFlat ⟨2024, 1, 1, 1⟩ "ts2"] :=
  ⟨rfl, rfl, rfl, rfl⟩

/-- C3 witness: two appends of one-record payloads on a fresh dataset leave
the header once followed by both records in order. -/
theorem hourly_store_append_order_header_once_witness :
    some [Line.header, Line.row (sampleFlat ⟨2024, 1, 1, 0⟩ "ts1"),
          Line.row (sampleFlat ⟨2024, 1, 1, 1⟩ "ts2")]
      = some ([Line.header] ++ [sampleFlat ⟨2024, 1, 1, 0⟩ "ts1"].map Line.row
          ++ [sampleFlat ⟨2024, 1, 1, 1⟩ "ts2"].map Line.row)
    ∧ headerCount (some [Line.header, Line.row (sampleFlat ⟨2024, 1, 1, 0⟩ "ts1"),
          Line.row (sampleFlat ⟨2024, 1, 1, 1⟩ "ts2")]) = 1
    ∧ readAll (some [Line.header, Line.row (sampleFlat ⟨2024, 1, 1, 0⟩ "ts1"),
          Line.row (sampleFlat ⟨2024, 1, 1, 1⟩ "ts2")])
        = [sampleFlat ⟨2024, 1, 1, 0⟩ "ts1"] ++ [sampleFlat ⟨2024, 1, 1, 1⟩ "ts2"] :=
  hourly_store_append_order_header_once
    (Json.obj [("x", Json.null)]) (Json.obj [("x", Json.null)])
    ⟨2024, 1, 1, 0⟩ ⟨2024, 1, 1, 1⟩ "ts1" "ts2"
    (some [Line.header, Line.row (sampleFlat ⟨2024, 1, 1, 0⟩ "ts1")])
    (some [Line.header, Line.row (sampleFlat ⟨2024, 1, 1, 0⟩ "ts1"),
           Line.row (sampleFlat ⟨2024, 1, 1, 1⟩ "ts2")])
    [sampleFlat ⟨2024, 1, 1, 0⟩ "ts1"] [sampleFlat ⟨2024, 1, 1, 1⟩ "ts2"]
    rfl (by simp) rfl (by simp)

theorem keyIsStr_iff (j : Json) (s : String) : keyIsStr j s = true ↔ j = Json.str s := by
  cases j <;> simp [keyIsStr]

theorem dictGetStr_absent (d : List (Json × Json)) (k : String)
    (h : ∀ p ∈ d, keyIsStr p.1 k = false) : dictGetStr d k = Json.num 0 := by
  unfold dictGetStr
  have hnil : d.filter (fun p => keyIsStr p.1 k) = [] := by
    rw [List.filter_eq_nil_iff]
    intro a ha
    simp [h a ha]
  rw [hnil]
  rfl

theorem buildMetricsDict_allObj (ms : List Json) (h : ∀ m ∈ ms, m.isObj = true)
    (hh : ∀ m ∈ ms, (idOfMetric m).isHashable = true) :
    ∃ d, buildMetricsDict ms = Except.ok d ∧ ∀ p ∈ d, ∃ m ∈ ms, p.1 = idOfMetric m := by
  induction ms with
  | nil => exact ⟨[], rfl, by simp⟩
  | cons m ms ih =>
      obtain ⟨d, hd, hkeys⟩ := ih (fun x hx => h x (List.mem_cons_of_mem _ hx))
        (fun x hx => hh x (List.mem_cons_of_mem _ hx))
      have hm := h m (List.mem_cons_self _ _)
      have hmh := hh m (List.mem_cons_self _ _)
      cases m with
      | obj mfs =>
          have hmh2 : (getD mfs "metricId" (Json.str "")).isHashable = true := hmh
          refine ⟨(getD mfs "metricId" (Json.str ""), getD mfs "value" (Json.num 0)) :: d, ?_, ?_⟩
          · simp only [buildMetricsDict, hmh2, if_true, hd, exceptBind_ok]
          · intro p hp
            rcases List.mem_cons.mp hp with h1 | h1
            · exact ⟨Json.obj mfs, List.mem_cons_self _ _, by rw [h1]; rfl⟩
            · obtain ⟨m', hm', hp'⟩ := hkeys p h1
              exact ⟨m', List.mem_cons_of_mem _ hm', hp'⟩
      | null => simp [Json.isObj] at hm
      | bool b => simp [Json.isObj] at hm
      | num q => simp [Json.isObj] at hm
      | str s => simp [Json.isObj] at hm
      | arr xs => simp [Json.isObj] at hm

theorem flattenRecords_single (c : LocalStamp) (ts : String) (fs fdf : List (String × Json))
    (ms : List Json) (d : List (Json × Json))
    (hfd : getD fs "flowDetails" (Json.obj []) = Json.obj fdf)
    (hm : getD fs "metrics" (Json.arr []) = Json.arr ms)
    (hd : buildMetricsDict ms = Except.ok d) :
    flattenRecords c ts [Json.obj fs] = Except.ok
      [{ datetime := c.dtStr
         date := c.dateStr
         hour := c.hour
         collection_timestamp := ts
         flow_id := getD fdf "flowId" (Json.str "unknown")
         flow_name := getD fdf "flowName" (Json.str "")
         flow_state := getD fdf "flowState" (Json.str "")
         total_exchanges := dictGetStr d "total-exchanges"
         successful_exchanges := dictGetStr d "successful-exchanges"
         failed_exchanges := dictGetStr d "failed-exchanges"
         inflight_exchanges := dictGetStr d "inflight-exchanges"
         avg_response_time_ms := dictGetStr d "avg-response-time-millis"
         avg_processing_time_ms := dictGetStr d "avg-processing-time-millis" }] := by
  simp only [flattenRecords, hfd, hm, pyGet, pyIter, hd, exceptBind_ok]

/-- C5 amended: the RecordFlattener edge cases — an empty payload (`null`,
`{}`, `[]`) yields zero records and leaves the file untouched; an entry whose
metrics array consists of dict entries with hashable (non-list, non-dict)
`metricId` values and lacks a given `metricId` yields `0` for the
corresponding record field rather than an error; non-object entries in a
list payload are skipped silently, contributing nothing to the flattening.
The hashability restriction is forced: an entry whose `metricId` is a list
or dict makes the program raise `TypeError: unhashable type`. -/
theorem record_flattener_edge_cases :
    (∀ (file : Option (List Line)) (c : LocalStamp) (ts : String),
       save_to_csv_hourly Json.null file c ts = Except.ok (file, [])
       ∧ save_to_csv_hourly (Json.obj []) file c ts = Except.ok (file, [])
       ∧ save_to_csv_hourly (Json.arr []) file c ts = Except.ok (file, []))
    ∧ (∀ (c : LocalStamp) (ts mid : String) (fs fdf : List (String × Json)) (ms : List Json),
         getD fs "flowDetails" (Json.obj []) = Json.obj fdf →
         getD fs "metrics" (Json.arr []) = Json.arr ms →
         (∀ m ∈ ms, m.isObj = true) →
         (∀ m ∈ ms, (idOfMetric m).isHashable = true) →
         (∀ m ∈ ms, idOfMetric m ≠ Json.str mid) →
         flattenerMissingMetricZero c ts mid fs)
    ∧ (∀ (c : LocalStamp) (ts : String) (l : List Json),
         flattenRecords c ts (l.filter Json.isObj) = flattenRecords c ts l) := by
  refine ⟨?_, ?_, ?_⟩
  · intro file c ts
    exact ⟨rfl, rfl, rfl⟩
  · intro c ts mid fs fdf ms hfd hm hobj hhash hlacks
    obtain ⟨d, hd, hkeys⟩ := buildMetricsDict_allObj ms hobj hhash
    have hzero : dictGetStr d mid = Json.num 0 := by
      apply dictGetStr_absent
      intro p hp
      obtain ⟨m, hm', hp'⟩ := hkeys p hp
      rw [hp']
      cases hk : keyIsStr (idOfMetric m) mid
      · rfl
      · exact absurd ((keyIsStr_iff _ _).mp hk) (hlacks m hm')
    refine ⟨_, flattenRecords_single c ts fs fdf ms d hfd hm hd, ?_⟩
    intro j hj
    unfold metricField at hj
    split_ifs at hj with h1 h2 h3 h4 h5 h6
    · subst h1
      simp only [Option.some.injEq] at hj
      rw [← hj]
      exact hzero
    · subst h2
      simp only [Option.some.injEq] at hj
      rw [← hj]
      exact hzero
    · subst h3
      simp only [Option.some.injEq] at hj
      rw [← hj]
      exact hzero
    · subst h4
      simp only [Option.some.injEq] at hj
      rw [← hj]
      exact hzero
    · subst h5
      simp only [Option.some.injEq] at hj
      rw [← hj]
      exact hzero
    · subst h6
      simp only [Option.some.injEq] at hj
      rw [← hj]
      exact hzero
  · intro c ts l
    induction l with
    | nil => rfl
    | cons r rs ih => cases r <;> simp [List.filter_cons, Json.isObj, flattenRecords, ih]

/-- C5 witness: a concrete entry carrying only `total-exchanges` flattens to
one record whose `failed-exchanges` field (absent from the metrics array)
is `0`. -/
theorem record_flattener_edge_cases_witness :
    flattenerMissingMetricZero ⟨2024, 1, 1, 5⟩ "t" "failed-exchanges"
      [("flowDetails", Json.obj [("flowId", Json.str "F1")]),
       ("metrics", Json.arr
          [Json.obj [("metricId", Json.str "total-exchanges"), ("value", Json.num 10)]])] :=
  record_flattener_edge_cases.2.1 ⟨2024, 1, 1, 5⟩ "t" "failed-exchanges"
    [("flowDetails", Json.obj [("flowId", Json.str "F1")]),
     ("metrics", Json.arr
        [Json.obj [("metricId", Json.str "total-exchanges"), ("value", Json.num 10)]])]
    [("flowId", Json.str "F1")]
    [Json.obj [("metricId", Json.str "total-exchanges"), ("value", Json.num 10)]]
    rfl rfl
    (by intro m hm; rcases List.mem_singleton.mp hm with rfl; rfl)
    (by intro m hm; rcases List.mem_singleton.mp hm with rfl; rfl)
    (by intro m hm; rcases List.mem_singleton.mp hm with rfl; simp [idOfMetric, getD])

/-- C5 counterexample: a list payload entry whose single metric carries the
unhashable `metricId` value `[]` makes the flattener raise
`TypeError: unhashable type` at the `metrics_dict[metric_id]` assignment,
even though its metrics array lacks every mapped `metricId` (here
`failed-exchanges`) — so a missing `metricId` does not always yield `0`
rather than an error. -/
theorem flattener_unhashable_metric_id_counterexample :
    flattenRecords ⟨2024, 1, 1, 5⟩ "t"
        [Json.obj [("metrics", Json.arr [Json.obj [("metricId", Json.arr [])]])]]
      = Except.error "TypeError: unhashable type"
    ∧ (∀ m ∈ [Json.obj [("metricId", Json.arr [])]], idOfMetric m ≠ Json.str "failed-exchanges")
    ∧ save_to_csv_hourly
        (Json.arr [Json.obj [("metrics", Json.arr [Json.obj [("metricId", Json.arr [])]])]])
        none ⟨2024, 1, 1, 5⟩ "t"
      = Except.error "TypeError: unhashable type" :=
  ⟨rfl, by intro m hm; rcases List.mem_singleton.mp hm with rfl; simp [idOfMetric, getD], rfl⟩

/-- C4 amended: when the window loop completes, `successful_hours` counts
exactly the windows whose fetch returned a truthy (non-empty, non-null)
payload — not all windows whose fetch succeeded — and the run's hourly file,
counters and records are those of the truthy-payload windows alone, so the
daily aggregate reflects only their data. -/
theorem run_summary_counts_truthy_windows (fetch : PipeWindow → Option Json) (ts : String)
    (ws : List PipeWindow) (file : Option (List Line)) (succ tot : Nat)
    (r : Option (List Line) × Nat × Nat)
    (h : processWindows fetch ts ws file succ tot = Except.ok r) :
    r.2.1 = succ + (ws.filter (fetchTruthy fetch)).length
    ∧ processWindows fetch ts (ws.filter (fetchTruthy fetch)) file succ tot = Except.ok r := by
  induction ws generalizing file succ tot with
  | nil =>
      simp only [processWindows, Except.ok.injEq] at h
      subst h
      exact ⟨rfl, rfl⟩
  | cons w ws ih =>
      simp only [processWindows] at h
      cases hf : fetch w with
      | none =>
          rw [hf] at h
          have htw : fetchTruthy fetch w = false := by simp [fetchTruthy, hf]
          simp only [List.filter_cons, htw, Bool.false_eq_true, if_false]
          exact ih _ _ _ h
      | some d =>
          simp only [hf] at h
          by_cases hd : pyTruthy d
          · rw [if_pos hd] at h
            cases hs : save_to_csv_hourly d file w.local_dt ts with
            | error e =>
                rw [hs, exceptBind_error] at h
                exact absurd h (by simp)
            | ok res =>
                rw [hs, exceptBind_ok] at h
                obtain ⟨ha, hb⟩ := ih _ _ _ h
                have htw : fetchTruthy fetch w = true := by simp [fetchTruthy, hf, hd]
                constructor
                · rw [ha]
                  simp only [List.filter_cons, htw, if_true, List.length_cons]
                  omega
                · simp only [List.filter_cons, htw, if_true]
                  simp only [processWindows, hf]
                  rw [if_pos hd, hs, exceptBind_ok]
                  exact hb
          · rw [if_neg hd] at h
            have htw : fetchTruthy fetch w = false := by simp [fetchTruthy, hf, hd]
            simp only [List.filter_cons, htw, Bool.false_eq_true, if_false]
            exact ih _ _ _ h

/-- C4 counterexample: a single window whose fetch succeeds but returns the
empty payload `[]` is reported as 0 successful hours out of 1, although its
fetch succeeded (1 of 1 fetches returned a payload), so the summary does not
report the number of windows whose fetch succeeded. -/
theorem run_summary_empty_payload_counterexample :
    processWindows (fun _ => some (Json.arr [])) "t"
        [⟨0, usPerHour, ⟨2024, 1, 1, 0⟩⟩] none 0 0
      = Except.ok (none, 0, 0)
    ∧ (([⟨0, usPerHour, ⟨2024, 1, 1, 0⟩⟩] : List PipeWindow).filter
        (fun w => ((fun (_ : PipeWindow) => some (Json.arr [])) w).isSome)).length = 1 :=
  ⟨rfl, rfl⟩

/-- C4 witness: a two-window run where one fetch returns a truthy payload and
the other fails reports 1 successful hour and processes only the truthy
window. -/
theorem run_summary_counts_truthy_windows_witness :
    ((none : Option (List Line)), 1, 1).2.1
      = 0 + (([⟨0, usPerHour, ⟨2024, 1, 1, 0⟩⟩, ⟨usPerHour, 2 * usPerHour, ⟨2024, 1, 1, 1⟩⟩] :
          List PipeWindow).filter
            (fetchTruthy (fun w => if w.from_utc = 0 then some (Json.num 1) else none))).length
    ∧ processWindows (fun w => if w.from_utc = 0 then some (Json.num 1) else none) "t"
        (([⟨0, usPerHour, ⟨2024, 1, 1, 0⟩⟩, ⟨usPerHour, 2 * usPerHour, ⟨2024, 1, 1, 1⟩⟩] :
          List PipeWindow).filter
            (fetchTruthy (fun w => if w.from_utc = 0 then some (Json.num 1) else none)))
        none 0 0
      = Except.ok (none, 1, 1) :=
  run_summary_counts_truthy_windows
    (fun w => if w.from_utc = 0 then some (Json.num 1) else none) "t"
    [⟨0, usPerHour, ⟨2024, 1, 1, 0⟩⟩, ⟨usPerHour, 2 * usPerHour, ⟨2024, 1, 1, 1⟩⟩]
    none 0 0 (none, 1, 1) (by rfl)

/-- C8 amended: whenever `load_token` yields no token — whether because no
token is available anywhere or because the token file holds an expired token
— the run aborts immediately with the same single generic failure (exit
status 1) before any fetch (the result does not depend on `fetch`); the two
conditions are not signalled by distinct error types, only by log output. -/
theorem missing_or_expired_token_aborts_before_fetch (e : TokenEnv)
    (fetch : PipeWindow → Option Json) (ws : List PipeWindow) (ts : String)
    (h : load_token e = none) : main_run e fetch ws ts = Except.error 1 := by
  simp [main_run, h]

/-- C8 witness: a run with no token file and no environment token aborts with
exit status 1 before processing any window. -/
theorem missing_or_expired_token_aborts_before_fetch_witness :
    main_run ⟨none, none, 0⟩ (fun _ => none) [] "t" = Except.error 1 :=
  missing_or_expired_token_aborts_before_fetch ⟨none, none, 0⟩ (fun _ => none) [] "t" rfl

/-- C8 counterexample: a missing token and an expired file token produce the
very same outcome — `Except.error 1`, the generic exit of `main` — so the
pipeline does not fail with two distinct errors for the two conditions. -/
theorem token_errors_not_distinct_counterexample :
    main_run ⟨none, none, 0⟩ (fun _ => none) [] "t" = Except.error 1
    ∧ main_run ⟨some (some ⟨some "tok", some 5⟩), none, 10⟩ (fun _ => none) [] "t"
        = Except.error 1
    ∧ main_run ⟨none, none, 0⟩ (fun _ => none) [] "t"
        = main_run ⟨some (some ⟨some "tok", some 5⟩), none, 10⟩ (fun _ => none) [] "t" :=
  ⟨rfl, rfl, rfl⟩

/-- C10 amended: with a non-empty `API_TOKEN` in the environment, an
unreadable token file does fall through to the environment token, but a
readable file holding a truthy token whose `expires_at` is in the past makes
`load_token` return nothing — the expiry check blocks the environment
fallback. -/
theorem unreadable_file_falls_back_expired_blocks (e : TokenEnv) (t : String)
    (henv : e.api_token_env = some t) (ht : t ≠ "") :
    (e.token_file = some none → load_token e = some t)
    ∧ (∀ td exp, e.token_file = some (some td) → pyTruthyStrOpt td.token = true →
        td.expires_at = some exp → exp ≤ e.now → load_token e = none) := by
  constructor
  · intro hf
    simp [load_token, hf, envFallback, henv, ht]
  · intro td exp hf htok hexp hle
    have hge : e.now ≥ exp := hle
    simp [load_token, hf, htok, hexp, hge]

/-- C10 counterexample: a readable token file with a valid-format but expired
token makes `load_token` return nothing even though `API_TOKEN` is set to a
usable token — the expiry check blocks the environment-variable fallback. -/
theorem expired_file_token_blocks_env_counterexample :
    load_token ⟨some (some ⟨some "tok", some 0⟩), some "envtok", 1⟩ = none
    ∧ envFallback ⟨some (some ⟨some "tok", some 0⟩), some "envtok", 1⟩ = some "envtok" :=
  ⟨rfl, rfl⟩

/-- C10 witness: with `API_TOKEN` set, an unreadable token file falls back to
the environment token, and the expired-file clause holds vacuously. -/
theorem unreadable_file_falls_back_expired_blocks_witness :
    (((⟨some none, some "envtok", 0⟩ : TokenEnv).token_file = some none →
        load_token ⟨some none, some "envtok", 0⟩ = some "envtok")
    ∧ (∀ td exp, (⟨some none, some "envtok", 0⟩ : TokenEnv).token_file = some (some td) →
        pyTruthyStrOpt td.token = true → td.expires_at = some exp →
        exp ≤ (⟨some none, some "envtok", 0⟩ : TokenEnv).now →
        load_token ⟨some none, some "envtok", 0⟩ = none)) :=
  unreadable_file_falls_back_expired_blocks ⟨some none, some "envtok", 0⟩ "envtok"
    rfl (by decide)

theorem genLoop_stop (tz endDt cur : Int) (h : endDt < cur) : genLoop tz endDt cur = [] := by
  rw [genLoop]
  exact dif_neg (by omega)

theorem genLoop_step (tz endDt cur : Int) (h : cur ≤ endDt) :
    genLoop tz endDt cur =
      { from_utc := cur - tz * usPerHour
        to_utc := cur + usPerHour - tz * usPerHour
        local_dt := cur } :: genLoop tz endDt (cur + usPerHour) := by
  conv_lhs => rw [genLoop]
  exact dif_pos h

theorem genLoop_range (tz : Int) : ∀ (n : Nat) (cur r : Int), 0 ≤ r → r < usPerHour →
    genLoop tz (cur + (n : Int) * usPerHour + r) cur =
      (List.range (n + 1)).map (fun k =>
        { from_utc := cur + (k : Int) * usPerHour - tz * usPerHour
          to_utc := cur + (k : Int) * usPerHour + usPerHour - tz * usPerHour
          local_dt := cur + (k : Int) * usPerHour }) := by
  intro n
  induction n with
  | zero =>
      intro cur r h0 hr
      rw [genLoop_step _ _ _ (by push_cast; omega)]
      rw [genLoop_stop _ _ _ (by simp only [usPerHour] at *; push_cast; omega)]
      simp [List.range_succ]
  | succ n ih =>
      intro cur r h0 hr
      have hpos : (0 : Int) < usPerHour := by norm_num [usPerHour]
      rw [genLoop_step _ _ _ (by push_cast; nlinarith)]
      have harg : cur + ((n + 1 : Nat) : Int) * usPerHour + r
          = (cur + usPerHour) + (n : Int) * usPerHour + r := by push_cast; ring
      rw [harg, ih (cur + usPerHour) r h0 hr]
      conv_rhs => rw [List.range_succ_eq_map]
      simp only [List.map_cons, List.map_map]
      refine congrArg₂ List.cons ?_ ?_
      · simp [HourRange.mk.injEq]
      · refine List.map_congr_left ?_
        intro k _
        simp only [Function.comp, HourRange.mk.injEq]
        push_cast
        refine ⟨by ring, by ring, by ring⟩

/-- C1: for calendar dates `sd ≤ ed` and any fixed timezone offset, the
generator returns exactly `24 * daysInclusive` windows, strictly increasing
in local timestamp, each one hour long with `from_utc` the local timestamp
minus the offset, contiguous with no gaps or overlaps, starting at local
midnight of the start date and ending at 23:00 of the end date. -/
theorem window_generator_complete_spec (tz sd ed : Int) (h : sd ≤ ed) :
    windowGeneratorSpec tz sd ed := by
  have hn0 : (0 : Int) ≤ 24 * (ed - sd) + 23 := by omega
  have hnz : (((24 * (ed - sd) + 23).toNat : Nat) : Int) = 24 * (ed - sd) + 23 :=
    Int.toNat_of_nonneg hn0
  set n : Nat := (24 * (ed - sd) + 23).toNat with hndef
  have harg : ed * usPerDay + lastUsOfDay
      = sd * usPerDay + (n : Int) * usPerHour + 3599999999 := by
    simp only [usPerDay, usPerHour, lastUsOfDay]
    omega
  have key : generate_hourly_ranges tz sd ed = (List.range (n + 1)).map (fun k =>
      { from_utc := sd * usPerDay + (k : Int) * usPerHour - tz * usPerHour
        to_utc := sd * usPerDay + (k : Int) * usPerHour + usPerHour - tz * usPerHour
        local_dt := sd * usPerDay + (k : Int) * usPerHour }) := by
    unfold generate_hourly_ranges
    rw [harg]
    exact genLoop_range tz n (sd * usPerDay) 3599999999 (by norm_num) (by norm_num [usPerHour])
  have hlen : (generate_hourly_ranges tz sd ed).length = n + 1 := by
    rw [key]
    simp
  have hget : ∀ i, ∀ hi : i < (generate_hourly_ranges tz sd ed).length,
      (generate_hourly_ranges tz sd ed).get ⟨i, hi⟩ =
        { from_utc := sd * usPerDay + (i : Int) * usPerHour - tz * usPerHour
          to_utc := sd * usPerDay + (i : Int) * usPerHour + usPerHour - tz * usPerHour
          local_dt := sd * usPerDay + (i : Int) * usPerHour } := by
    intro i hi
    simp only [key, List.get_eq_getElem, List.getElem_map, List.getElem_range]
  unfold windowGeneratorSpec
  refine ⟨?_, ?_, ?_, ?_, ?_, ?_, ?_⟩
  · rw [hlen]
    push_cast
    omega
  · intro i hi
    rw [hget i hi]
  · intro i j hi hj hij
    rw [hget i hi, hget j hj]
    simp only [usPerDay, usPerHour]
    omega
  · intro w hw
    rw [key] at hw
    obtain ⟨k, hk, rfl⟩ := List.mem_map.mp hw
    exact ⟨by simp only [usPerDay, usPerHour]; ring, rfl⟩
  · intro i hi
    rw [hget (i + 1) hi, hget i (Nat.lt_of_succ_lt hi)]
    simp only [usPerDay, usPerHour]
    push_cast
    ring
  · intro h0
    rw [hget 0 h0]
    simp
  · intro hl
    rw [hget _ hl]
    rw [hlen]
    simp only [Nat.add_sub_cancel, usPerDay, usPerHour]
    omega

/-- C1 witness: a single-day range with offset +1 satisfies the full window
spec. -/
theorem window_generator_complete_spec_witness : windowGeneratorSpec 1 0 0 :=
  window_generator_complete_spec 1 0 0 (by norm_num)

/-- C7 counterexample: with `endDate < startDate` (start day 1, end day 0)
the generator raises nothing and returns the empty window list — there is no
`InvalidRangeError` and no pre-run precondition check anywhere in the
pipeline. -/
theorem invalid_range_no_error_counterexample : generate_hourly_ranges 1 1 0 = [] := by
  unfold generate_hourly_ranges
  apply genLoop_stop
  norm_num [usPerDay, usPerHour, lastUsOfDay]

/-- C7 amended: for `endDate < startDate` the pipeline raises no error at
all: the generator returns an empty window list, so the window loop performs
no fetch (no network activity) and the run completes reporting 0 of 0
windows. -/
theorem invalid_range_yields_no_windows (tz sd ed : Int) (h : ed < sd) :
    generate_hourly_ranges tz sd ed = []
    ∧ ∀ (fetch : PipeWindow → Option Json) (ts : String) (file : Option (List Line)),
        processWindows fetch ts [] file 0 0 = Except.ok (file, 0, 0) := by
  constructor
  · unfold generate_hourly_ranges
    apply genLoop_stop
    simp only [usPerDay, usPerHour, lastUsOfDay]
    omega
  · intro fetch ts file
    rfl

/-- C7 witness: the inverted range (start day 1, end day 0) yields zero
windows and a loop that touches nothing. -/
theorem invalid_range_yields_no_windows_witness :
    generate_hourly_ranges 1 1 0 = []
    ∧ ∀ (fetch : PipeWindow → Option Json) (ts : String) (file : Option (List Line)),
        processWindows fetch ts [] file 0 0 = Except.ok (file, 0, 0) :=
  invalid_range_yields_no_windows 1 1 0 (by norm_num)
